import Mathlib

/-!
Verification of `src/userport/static/js/upload_url.js`.

The file under verification defines a single class `UploadURL`.  Its
constructor queries the DOM for the element `#upload-url-btn`, attaches a
click listener (the bound method `handleUploadButtonBlick`) to it, and then
reads the `value` of the element `#upload_url_csrf_token` into the field
`this.csrfToken`.  The click handler builds the object
`\x7b url: "https://flask.palletsprojects.com/en/3.0.x/extensions" \x7d`,
computes the URL `"http://" + window.location.host + "/api/v1/upload_url"`,
and calls `fetch` with method POST, headers `Content-Type` and
`X-CSRFToken`, and the JSON serialization of the object as body; the
returned promise is discarded and the handler returns `undefined`.

The embedding below models the DOM as a `querySelector` map, JavaScript
exceptions as `Except`, the JSON serialization performed by
`JSON.stringify` (including its escaping rules for string values), a JSON
reader used to state properties about the request body as parsed JSON, and
the click handler as a function from the object state, the ambient
document, the click-time `window.location.host`, the event argument and a
fetch-outcome oracle to a result that records the list of issued requests,
the returned value, and the object and document states after the run.
-/

namespace UploadUrlJs

/-- Left curly brace character, written by code point. -/
def lbrace : Char := Char.ofNat 0x7b

/-- Right curly brace character, written by code point. -/
def rbrace : Char := Char.ofNat 0x7d

/-- A DOM element, reduced to the one property the script reads: `value`. -/
structure Element where
  value : String
deriving DecidableEq, Repr

/-- The document, reduced to the one operation the script uses:
`document.querySelector`, which returns an element or `null`. -/
structure DOM where
  query : String → Option Element

/-- The state of a constructed `UploadURL` object: the fields assigned by
the constructor (`this.uploadButton` and `this.csrfToken`). -/
structure UploadURL where
  uploadButton : Element
  csrfToken : String
deriving DecidableEq, Repr

/-- JavaScript runtime errors relevant here: accessing a property or
method of `null` throws a `TypeError`. -/
inductive JsError where
  | typeError
deriving DecidableEq, Repr

/-- Outcome of running the `UploadURL` constructor: the value produced (a
constructed object, or a thrown error) together with the number of click
listeners that were added to `#upload-url-btn` during the run. -/
structure ConstructorOutcome where
  result : Except JsError UploadURL
  listenerCount : Nat

/-- The selector of the click target. -/
def btnSelector : String := "#upload-url-btn"

/-- The selector of the hidden input holding the CSRF token. -/
def csrfSelector : String := "#upload_url_csrf_token"

/-- Embedding of the `UploadURL` constructor.  It queries
`#upload-url-btn`; if the query returns `null`, the call
`null.addEventListener` throws before any listener is registered.
Otherwise the click listener is added, and only then is
`#upload_url_csrf_token` queried; if that query returns `null`, reading
`.value` throws, after the listener was already registered.  When both
elements exist the object is constructed with the field value read at this
moment. -/
def constructUploadURL (document : DOM) : ConstructorOutcome :=
  match document.query btnSelector with
  | none => { result := Except.error JsError.typeError, listenerCount := 0 }
  | some btn =>
    match document.query csrfSelector with
    | none => { result := Except.error JsError.typeError, listenerCount := 1 }
    | some field =>
      { result := Except.ok { uploadButton := btn, csrfToken := field.value }
        listenerCount := 1 }

/-- JSON values as produced and consumed by the script: the payload is an
object literal whose single field holds a string. -/
inductive Json where
  | str : String → Json
  | obj : List (String × Json) → Json
deriving Repr

/-- Hexadecimal digit character for a value below 16, lower case as used
by JavaScript in `\u` escapes. -/
def hexDigitChar (n : Nat) : Char :=
  if n < 10 then Char.ofNat (48 + n) else Char.ofNat (87 + n)

/-- Escaping of a single character inside a JSON string literal, as done
by `JSON.stringify`. -/
def escapeJsonChar (c : Char) : String :=
  if c = '"' then "\\\""
  else if c = '\\' then "\\\\"
  else if c = '\x08' then "\\b"
  else if c = '\x0c' then "\\f"
  else if c = '\n' then "\\n"
  else if c = '\r' then "\\r"
  else if c = '\t' then "\\t"
  else if c.toNat < 32 then
    "\\u00" ++ String.mk [hexDigitChar (c.toNat / 16), hexDigitChar (c.toNat % 16)]
  else String.singleton c

/-- A JSON string literal: quotes around the escaped characters. -/
def encodeJsonString (s : String) : String :=
  "\"" ++ String.join (s.data.map escapeJsonChar) ++ "\""

mutual

/-- Serialization of a JSON value exactly as `JSON.stringify` renders it:
no whitespace, fields separated by commas, keys and values separated by a
colon. -/
def Json.stringify : Json → String
  | Json.str s => encodeJsonString s
  | Json.obj fields => "\x7b" ++ stringifyFields fields ++ "\x7d"

/-- Serialization of the field list of a JSON object. -/
def stringifyFields : List (String × Json) → String
  | [] => ""
  | [(k, v)] => encodeJsonString k ++ ":" ++ Json.stringify v
  | (k, v) :: rest =>
      encodeJsonString k ++ ":" ++ Json.stringify v ++ "," ++ stringifyFields rest

end

/-- JSON whitespace. -/
def isJsonWs (c : Char) : Bool :=
  c == ' ' || c == '\t' || c == '\n' || c == '\r'

/-- Skip JSON whitespace. -/
def skipWs (l : List Char) : List Char := l.dropWhile isJsonWs

/-- Value of a hexadecimal digit character. -/
def hexVal (c : Char) : Option Nat :=
  if '0' ≤ c ∧ c ≤ '9' then some (c.toNat - 48)
  else if 'a' ≤ c ∧ c ≤ 'f' then some (c.toNat - 87)
  else if 'A' ≤ c ∧ c ≤ 'F' then some (c.toNat - 55)
  else none

/-- Unescaped character named by a single-character JSON escape. -/
def escChar (e : Char) : Option Char :=
  if e = '"' then some '"'
  else if e = '\\' then some '\\'
  else if e = '/' then some '/'
  else if e = 'b' then some '\x08'
  else if e = 'f' then some '\x0c'
  else if e = 'n' then some '\n'
  else if e = 'r' then some '\r'
  else if e = 't' then some '\t'
  else none

/-- Reads the body of a JSON string literal, the opening quote already
consumed; returns the decoded string and the input after the closing
quote. -/
def readStrBody : List Char → Option (String × List Char)
  | [] => none
  | '"' :: rest => some ("", rest)
  | '\\' :: 'u' :: a :: b :: c :: d :: rest =>
      match hexVal a, hexVal b, hexVal c, hexVal d with
      | some ha, some hb, some hc, some hd =>
        (fun p => (String.singleton (Char.ofNat (((ha * 16 + hb) * 16 + hc) * 16 + hd)) ++ p.1, p.2))
          <$> readStrBody rest
      | _, _, _, _ => none
  | '\\' :: e :: rest =>
      match escChar e with
      | none => none
      | some ch => (fun p => (String.singleton ch ++ p.1, p.2)) <$> readStrBody rest
  | c :: rest =>
      if c.toNat < 32 then none
      else (fun p => (String.singleton c ++ p.1, p.2)) <$> readStrBody rest

mutual

/-- Reads one JSON value (a string literal or an object) from the input,
fuel-indexed; returns the value and the remaining input. -/
def readVal : Nat → List Char → Option (Json × List Char)
  | 0, _ => none
  | Nat.succ fuel, l =>
    match skipWs l with
    | [] => none
    | c :: rest =>
      if c = '"' then
        (fun p => (Json.str p.1, p.2)) <$> readStrBody rest
      else if c = lbrace then
        match skipWs rest with
        | [] => none
        | c2 :: rest2 =>
          if c2 = rbrace then some (Json.obj [], rest2)
          else
            (fun p => (Json.obj p.1, p.2)) <$> readFields fuel rest
      else none

/-- Reads the non-empty field list of a JSON object, positioned right
after the opening brace or after a separating comma. -/
def readFields : Nat → List Char → Option (List (String × Json) × List Char)
  | 0, _ => none
  | Nat.succ fuel, l =>
    match skipWs l with
    | [] => none
    | c :: rest =>
      if c = '"' then
        match readStrBody rest with
        | none => none
        | some (key, rest2) =>
          match skipWs rest2 with
          | [] => none
          | c2 :: rest3 =>
            if c2 = ':' then
              match readVal fuel rest3 with
              | none => none
              | some (v, rest4) =>
                match skipWs rest4 with
                | [] => none
                | c3 :: rest5 =>
                  if c3 = ',' then
                    (fun p => ((key, v) :: p.1, p.2)) <$> readFields fuel rest5
                  else if c3 = rbrace then some ([(key, v)], rest5)
                  else none
            else none
      else none

end

/-- Parses a complete JSON document made of strings and objects; fails if
anything other than whitespace follows the value. -/
def Json.parse (s : String) : Option Json :=
  match readVal (s.length + 1) s.data with
  | some (j, rest) => if skipWs rest = [] then some j else none
  | none => none

/-- The hardcoded URL placed in the request payload by the handler. -/
def uploadUrlConstant : String :=
  "https://flask.palletsprojects.com/en/3.0.x/extensions"

/-- A click event, reduced to data the handler could in principle read;
the handler never does. -/
structure Event where
  eventType : String
  timeStamp : Nat
deriving DecidableEq, Repr

/-- An HTTP request as assembled for `fetch`. -/
structure Request where
  method : String
  url : String
  headers : List (String × String)
  body : String
deriving DecidableEq, Repr

/-- Possible outcomes of a `fetch` call: an HTTP response with a status,
or a network failure. -/
inductive FetchOutcome where
  | response : Nat → FetchOutcome
  | networkError : FetchOutcome
deriving DecidableEq, Repr

/-- JavaScript values a handler could return; this one always returns
`undefined`. -/
inductive JsValue where
  | undefined : JsValue
  | boolean : Bool → JsValue
  | string : String → JsValue
deriving DecidableEq, Repr

/-- Result of one run of the click handler: the requests issued, the
value returned, and the object and document states after the run. -/
structure HandlerResult where
  requests : List Request
  retVal : JsValue
  self : UploadURL
  document : DOM

/-- Embedding of `UploadURL.handleUploadButtonBlick`.  `self` is the
receiver, `document` the ambient DOM at click time, `host` the value of
`window.location.host` at click time, `event` the click event argument,
and `fetchResult` an oracle giving the outcome the network would produce
for a request.  The body builds the payload object, the URL string, and
issues the single `fetch`; it never reads `event` or the document, never
writes a field, ignores the promise, and returns `undefined`. -/
def handleUploadButtonBlick (self : UploadURL) (document : DOM) (host : String)
    (event : Event) (fetchResult : Request → FetchOutcome) : HandlerResult :=
  let upload_url : Json := Json.obj [("url", Json.str uploadUrlConstant)]
  let url : String := "http://" ++ host ++ "/api/v1/upload_url"
  let req : Request :=
    { method := "POST"
      url := url
      headers := [("Content-Type", "application/json"), ("X-CSRFToken", self.csrfToken)]
      body := Json.stringify upload_url }
  { requests := [req], retVal := JsValue.undefined, self := self, document := document }

/-- Value of a header in a request, by case-sensitive lookup of the first
matching name. -/
def headerValue (r : Request) (name : String) : Option String :=
  (r.headers.find? (fun p => p.1 == name)).map (fun p => p.2)

/-- Path component of a URL: everything from the first slash after the
`scheme://` separator. -/
def urlPathOf (u : String) : String :=
  String.mk (((u.data.dropWhile (fun c => c != ':')).drop 3).dropWhile (fun c => c != '/'))

/-- Scheme component of a URL: everything before the first colon. -/
def urlSchemeOf (u : String) : String :=
  String.mk (u.data.takeWhile (fun c => c != ':'))

/-- Sample element used as the upload button in concrete scenarios. -/
def sampleButton : Element := { value := "" }

/-- Sample constructed object with token "tok123". -/
def sampleSelf : UploadURL := { uploadButton := sampleButton, csrfToken := "tok123" }

/-- A sample click event. -/
def sampleEvent : Event := { eventType := "click", timeStamp := 0 }

/-- A second, distinct sample click event. -/
def sampleEvent2 : Event := { eventType := "click", timeStamp := 1 }

/-- A fetch oracle in which every request fails with a network error. -/
def sampleFetchFail : Request → FetchOutcome := fun _ => FetchOutcome.networkError

/-- A fetch oracle in which every request succeeds with status 200. -/
def sampleFetchOk : Request → FetchOutcome := fun _ => FetchOutcome.response 200

/-- A document with neither required element. -/
def emptyDom : DOM := { query := fun _ => none }

/-- A document holding the button and a CSRF field with the given token. -/
def domWithToken (tok : String) : DOM :=
  { query := fun s =>
      if s = btnSelector then some sampleButton
      else if s = csrfSelector then some { value := tok }
      else none }

/-- A document holding the button but no CSRF field. -/
def domButtonOnly : DOM :=
  { query := fun s => if s = btnSelector then some sampleButton else none }

/-- The object the constructor produces from `domWithToken "tokenA"`. -/
def selfTokenA : UploadURL := { uploadButton := sampleButton, csrfToken := "tokenA" }

/-- Dropping characters up to the first slash of a slash-free list
followed by a slash keeps everything from that slash. -/
theorem dropWhile_until_slash (l r : List Char) (h : '/' ∉ l) :
    (l ++ '/' :: r).dropWhile (fun c => c != '/') = '/' :: r := by
  induction l with
  | nil => rfl
  | cons a t ih =>
    have ha : (a != '/') = true := by
      simp only [bne_iff_ne, ne_eq]
      intro e
      exact h (by simp [e])
    simp only [List.cons_append, List.dropWhile_cons, ha, if_true]
    exact ih (fun m => h (List.mem_cons_of_mem a m))

/-- The path of the URL the handler builds is `/api/v1/upload_url`, for
any host that contains no slash. -/
theorem urlPathOf_handler_url (host : String) (h : '/' ∉ host.data) :
    urlPathOf ("http://" ++ host ++ "/api/v1/upload_url") = "/api/v1/upload_url" := by
  have hd : ("http://" ++ host ++ "/api/v1/upload_url").data
      = 'h' :: 't' :: 't' :: 'p' :: ':' :: '/' :: '/'
        :: (host.data ++ '/' :: "api/v1/upload_url".data) := by
    rw [String.data_append, String.data_append]
    rfl
  unfold urlPathOf
  rw [hd]
  show String.mk ((host.data ++ '/' :: "api/v1/upload_url".data).dropWhile (fun c => c != '/'))
      = "/api/v1/upload_url"
  rw [dropWhile_until_slash _ _ h]

/-- Every URL of the form `"http://" ++ host ++ p` has scheme `http`. -/
theorem urlSchemeOf_handler_url (host p : String) :
    urlSchemeOf ("http://" ++ host ++ p) = "http" := by
  have hd : ("http://" ++ host ++ p).data
      = 'h' :: 't' :: 't' :: 'p' :: ':' :: '/' :: '/' :: (host.data ++ p.data) := by
    rw [String.data_append, String.data_append]
    rfl
  unfold urlSchemeOf
  rw [hd]
  rfl

/-- When the constructor returns a constructed object, the stored
`csrfToken` is the `value` the CSRF field had in the construction-time
document. -/
theorem construct_ok_csrf (dom : DOM) (self : UploadURL)
    (h : (constructUploadURL dom).result = Except.ok self) :
    (dom.query csrfSelector).map Element.value = some self.csrfToken := by
  unfold constructUploadURL at h
  cases hq1 : dom.query btnSelector with
  | none =>
    rw [hq1] at h
    exact absurd h (by simp)
  | some btn =>
    rw [hq1] at h
    cases hq2 : dom.query csrfSelector with
    | none =>
      rw [hq2] at h
      exact absurd h (by simp)
    | some field =>
      rw [hq2] at h
      simp only [Except.ok.injEq] at h
      rw [← h]
      rfl

/-- C1: every click on the upload button makes the handler issue exactly
one HTTP request, that request uses method POST, and the path of its URL
is `/api/v1/upload_url` (for any click-time host containing no slash). -/
theorem c1_click_issues_single_post_to_upload_url_path
    (self : UploadURL) (document : DOM) (host : String) (event : Event)
    (fetchResult : Request → FetchOutcome) (hhost : '/' ∉ host.data) :
    (handleUploadButtonBlick self document host event fetchResult).requests.map
      (fun r => (r.method, urlPathOf r.url))
    = [("POST", "/api/v1/upload_url")] := by
  show [("POST", urlPathOf ("http://" ++ host ++ "/api/v1/upload_url"))]
      = [("POST", "/api/v1/upload_url")]
  rw [urlPathOf_handler_url host hhost]

/-- Witness for C1 at a concrete host, event, outcome oracle and object. -/
theorem c1_witness :
    (handleUploadButtonBlick sampleSelf emptyDom "example.com" sampleEvent
        sampleFetchFail).requests.map (fun r => (r.method, urlPathOf r.url))
    = [("POST", "/api/v1/upload_url")] :=
  c1_click_issues_single_post_to_upload_url_path sampleSelf emptyDom "example.com"
    sampleEvent sampleFetchFail (by decide)

/-- C2 counterexample: construct against a document whose CSRF field holds
"tokenA", then let the field hold "tokenB" at click time; the header sent
is "tokenA", not the click-time value "tokenB", so the header does not
equal the value of `#upload_url_csrf_token` as observed at click time. -/
theorem c2_counterexample :
    (constructUploadURL (domWithToken "tokenA")).result = Except.ok selfTokenA ∧
    ((domWithToken "tokenB").query csrfSelector).map Element.value = some "tokenB" ∧
    (handleUploadButtonBlick selfTokenA (domWithToken "tokenB") "example.com" sampleEvent
        sampleFetchFail).requests.map (fun r => headerValue r "X-CSRFToken")
      = [some "tokenA"] ∧
    (some "tokenA" : Option String) ≠ some "tokenB" :=
  ⟨rfl, rfl, rfl, by decide⟩

/-- C2 amended: for every click on the upload button, the POST request
carries a header X-CSRFToken whose value equals the value the DOM element
`#upload_url_csrf_token` had at construction time. -/
theorem c2_amended_csrf_header_is_construction_time_value
    (domC : DOM) (self : UploadURL) (h : (constructUploadURL domC).result = Except.ok self)
    (domClick : DOM) (host : String) (event : Event)
    (fetchResult : Request → FetchOutcome) :
    (handleUploadButtonBlick self domClick host event fetchResult).requests.map
      (fun r => headerValue r "X-CSRFToken")
    = [(domC.query csrfSelector).map Element.value] := by
  rw [construct_ok_csrf domC self h]
  rfl

/-- Witness for the amended C2 at concrete documents. -/
theorem c2_amended_witness :
    (handleUploadButtonBlick selfTokenA (domWithToken "tokenB") "example.com" sampleEvent
        sampleFetchFail).requests.map (fun r => headerValue r "X-CSRFToken")
    = [((domWithToken "tokenA").query csrfSelector).map Element.value] :=
  c2_amended_csrf_header_is_construction_time_value (domWithToken "tokenA") selfTokenA rfl
    (domWithToken "tokenB") "example.com" sampleEvent sampleFetchFail

/-- C3: for every click, the body of the issued POST request parses as a
JSON object with exactly one key, `url`, whose value is a string, and the
request's Content-Type header is `application/json`. -/
theorem c3_body_is_json_object_with_single_url_string_key
    (self : UploadURL) (document : DOM) (host : String) (event : Event)
    (fetchResult : Request → FetchOutcome) :
    ∃ u : String,
      (handleUploadButtonBlick self document host event fetchResult).requests.map
        (fun r => (Json.parse r.body, headerValue r "Content-Type"))
      = [(some (Json.obj [("url", Json.str u)]), some "application/json")] :=
  ⟨uploadUrlConstant, rfl⟩

/-- C4: the handler run leaves the object state and the document
unchanged and issues exactly one request. -/
theorem c4_no_side_effect_beyond_single_fetch
    (self : UploadURL) (document : DOM) (host : String) (event : Event)
    (fetchResult : Request → FetchOutcome) :
    (handleUploadButtonBlick self document host event fetchResult).self = self ∧
    (handleUploadButtonBlick self document host event fetchResult).document = document ∧
    (handleUploadButtonBlick self document host event fetchResult).requests.length = 1 :=
  ⟨rfl, rfl, rfl⟩

/-- C5: the handler is fire-and-forget: its whole result is independent
of the outcome the network produces for the request, it returns
`undefined`, and the object state is unchanged whether the request
succeeds or fails. -/
theorem c5_fire_and_forget_ignores_fetch_outcome
    (self : UploadURL) (document : DOM) (host : String) (event : Event)
    (outcome1 outcome2 : Request → FetchOutcome) :
    handleUploadButtonBlick self document host event outcome1
      = handleUploadButtonBlick self document host event outcome2 ∧
    (handleUploadButtonBlick self document host event outcome1).retVal = JsValue.undefined ∧
    (handleUploadButtonBlick self document host event outcome1).self = self :=
  ⟨rfl, rfl, rfl⟩

/-- C6: the CSRF token is read exactly once, at construction time: the
X-CSRFToken header sent on a click equals the field value in the
construction-time document, and the issued requests do not depend on the
click-time document at all, even if the field value changed there. -/
theorem c6_token_read_once_at_construction
    (domC : DOM) (self : UploadURL) (h : (constructUploadURL domC).result = Except.ok self)
    (domClick1 domClick2 : DOM) (host : String) (event : Event)
    (fetchResult : Request → FetchOutcome) :
    (handleUploadButtonBlick self domClick1 host event fetchResult).requests.map
      (fun r => headerValue r "X-CSRFToken")
    = [(domC.query csrfSelector).map Element.value] ∧
    (handleUploadButtonBlick self domClick1 host event fetchResult).requests
      = (handleUploadButtonBlick self domClick2 host event fetchResult).requests := by
  refine ⟨?_, rfl⟩
  rw [construct_ok_csrf domC self h]
  rfl

/-- Witness for C6: a changed click-time document does not alter the
header. -/
theorem c6_witness :
    ((handleUploadButtonBlick selfTokenA (domWithToken "tokenB") "h" sampleEvent
        sampleFetchOk).requests.map (fun r => headerValue r "X-CSRFToken")
      = [((domWithToken "tokenA").query csrfSelector).map Element.value]) ∧
    (handleUploadButtonBlick selfTokenA (domWithToken "tokenB") "h" sampleEvent
        sampleFetchOk).requests
      = (handleUploadButtonBlick selfTokenA (domWithToken "tokenA") "h" sampleEvent
          sampleFetchOk).requests :=
  c6_token_read_once_at_construction (domWithToken "tokenA") selfTokenA rfl
    (domWithToken "tokenB") (domWithToken "tokenA") "h" sampleEvent sampleFetchOk

/-- C7 counterexample: with `#upload-url-btn` present but
`#upload_url_csrf_token` absent, the constructor throws, yet the click
listener has already been registered, contradicting the claim that no
listener is registered when either element is absent. -/
theorem c7_counterexample :
    domButtonOnly.query csrfSelector = none ∧
    (constructUploadURL domButtonOnly).result = Except.error JsError.typeError ∧
    (constructUploadURL domButtonOnly).listenerCount = 1 :=
  ⟨rfl, rfl, rfl⟩

/-- C7 amended: when both elements are present the constructor succeeds
and registers the click listener; when `#upload-url-btn` is absent it
throws with no listener registered; when `#upload-url-btn` is present but
`#upload_url_csrf_token` is absent it throws after the listener was
already registered. -/
theorem c7_amended_construction_requirements (dom : DOM) :
    (dom.query btnSelector = none →
      (constructUploadURL dom).result = Except.error JsError.typeError ∧
      (constructUploadURL dom).listenerCount = 0) ∧
    (∀ btn field : Element, dom.query btnSelector = some btn →
      dom.query csrfSelector = some field →
      (constructUploadURL dom).result
          = Except.ok { uploadButton := btn, csrfToken := field.value } ∧
      (constructUploadURL dom).listenerCount = 1) ∧
    (∀ btn : Element, dom.query btnSelector = some btn →
      dom.query csrfSelector = none →
      (constructUploadURL dom).result = Except.error JsError.typeError ∧
      (constructUploadURL dom).listenerCount = 1) := by
  refine ⟨?_, ?_, ?_⟩
  · intro h1
    unfold constructUploadURL
    rw [h1]
    exact ⟨rfl, rfl⟩
  · intro btn field h1 h2
    unfold constructUploadURL
    rw [h1, h2]
    exact ⟨rfl, rfl⟩
  · intro btn h1 h2
    unfold constructUploadURL
    rw [h1, h2]
    exact ⟨rfl, rfl⟩

/-- Witness for the amended C7: construction against a document holding
both elements succeeds and registers the listener. -/
theorem c7_witness :
    (constructUploadURL (domWithToken "tok")).result
        = Except.ok { uploadButton := sampleButton, csrfToken := "tok" } ∧
    (constructUploadURL (domWithToken "tok")).listenerCount = 1 :=
  (c7_amended_construction_requirements (domWithToken "tok")).2.1 sampleButton
    { value := "tok" } rfl rfl

/-- C8: for every click, the `url` field of the request body is the fixed
constant string, independent of the object, the document, the host and
the event. -/
theorem c8_payload_url_is_hardcoded_constant
    (self : UploadURL) (document : DOM) (host : String) (event : Event)
    (fetchResult : Request → FetchOutcome) :
    (handleUploadButtonBlick self document host event fetchResult).requests.map
      (fun r => Json.parse r.body)
    = [some (Json.obj
        [("url", Json.str "https://flask.palletsprojects.com/en/3.0.x/extensions")])] :=
  rfl

/-- C9: for every click, the full request URL is the concatenation
`"http://" ++ host ++ "/api/v1/upload_url"` with the click-time host, and
its scheme is always `http`. -/
theorem c9_request_url_is_http_plus_host_plus_path
    (self : UploadURL) (document : DOM) (host : String) (event : Event)
    (fetchResult : Request → FetchOutcome) :
    (handleUploadButtonBlick self document host event fetchResult).requests.map Request.url
      = ["http://" ++ host ++ "/api/v1/upload_url"] ∧
    (handleUploadButtonBlick self document host event fetchResult).requests.map
      (fun r => urlSchemeOf r.url)
      = ["http"] := by
  refine ⟨rfl, ?_⟩
  show [urlSchemeOf ("http://" ++ host ++ "/api/v1/upload_url")] = ["http"]
  rw [urlSchemeOf_handler_url]

/-- C10: the handler never inspects its event argument: two clicks on the
same object under the same host produce identical results, in particular
identical requests. -/
theorem c10_handler_deterministic_in_event
    (self : UploadURL) (document : DOM) (host : String)
    (fetchResult : Request → FetchOutcome) (event1 event2 : Event) :
    handleUploadButtonBlick self document host event1 fetchResult
      = handleUploadButtonBlick self document host event2 fetchResult :=
  rfl

end UploadUrlJs
